import Mathlib

/-!
# SimpleGLShader: the GL surface callbacks and the create callback

A shallow embedding of `src/src/glviewshader.c` and `src/inc/glviewshader.h`.

The program owns one app-data record (`ad` in `main`).  The callbacks reach it
through the pointer stored under the key "ad" on the GL view object.  Every call
into the graphics API is appended to a log; the values the graphics driver and
the toolkit hand back are supplied by oracles that may depend on everything
that was called before.
-/

namespace GLViewShader

/-! ## Data model (`inc/glviewshader.h`) -/

/-- A toolkit object pointer (`Evas_Object *`, `Ecore_Animator *`): `none` is NULL. -/
abbrev Ptr := Option Nat

/-- `Eina_Bool` is an unsigned char; any non-zero value reads as true. -/
abbrev Eina_Bool := Nat

def EINA_FALSE : Eina_Bool := 0
def EINA_TRUE : Eina_Bool := 1

/-- The record `appdata_s`, field for field.  `unsigned int` is `Nat`, `int` is
`Int`; the `float` fields are never read or written by the program and are
carried as rationals. -/
structure appdata_s where
  name : String
  win : Ptr
  conform : Ptr
  ani : Ptr
  glview_h : Int
  glview_w : Int
  view_rotation : Int
  program : Nat
  vtx_shader : Nat
  fgmt_shader : Nat
  angle : Rat
  idx_vbo : Nat
  idx_ibo : Nat
  idx_vposition : Nat
  idx_vnormal : Nat
  idx_light_dir : Int
  idx_mvp : Int
  idx_time_stamp : Int
  mvp : List Rat
  light_dir : List Rat
  stop_count : Int
  time_stamp : Rat
  stride_time_stamp : Rat
  initialized : Eina_Bool
  deriving DecidableEq

/-- A pointer to an app-data record (`appdata_s *`, or `void *data`): the
program has exactly one record, so such a pointer is NULL or the address of
that record. -/
inductive AdPtr where
  | NULL
  | addr
  deriving DecidableEq

/-! ## The graphics API as seen by the program -/

/-- The symbolic GL constants the source passes. -/
inductive GLenum where
  | GL_VERTEX_SHADER
  | GL_FRAGMENT_SHADER
  | GL_COLOR_BUFFER_BIT
  | GL_FLOAT
  | GL_FALSE
  | GL_TRIANGLES
  deriving DecidableEq

/-- One call into the graphics API, with its arguments in source order.  The
two create calls also record the handle the driver returned.  A pointer
argument is recorded as what it points to: the source strings of
`glShaderSource` (`length` is `none` for NULL) and the float array of
`glVertexAttribPointer`. -/
inductive GLCall where
  | glCreateShader (type : GLenum) (ret : Nat)
  | glShaderSource (shader : Nat) (count : Int) (string : List String) (length : Option (List Int))
  | glCompileShader (shader : Nat)
  | glCreateProgram (ret : Nat)
  | glAttachShader (program : Nat) (shader : Nat)
  | glLinkProgram (program : Nat)
  | glUseProgram (program : Nat)
  | glViewport (x : Int) (y : Int) (width : Int) (height : Int)
  | glClear (mask : GLenum)
  | glVertexAttribPointer (index : Nat) (size : Int) (type : GLenum) (normalized : GLenum)
      (stride : Int) (pointer : List Rat)
  | glEnableVertexAttribArray (index : Nat)
  | glDrawArrays (mode : GLenum) (first : Int) (count : Int)
  | glDeleteShader (shader : Nat)
  | glDeleteProgram (program : Nat)
  deriving DecidableEq

/-- The graphics driver: the handle each create call returns, as a function of
all GL calls made so far. -/
structure GLDriver where
  glCreateShader : List GLCall → GLenum → Nat
  glCreateProgram : List GLCall → Nat

/-! ## The toolkit as seen by the program -/

/-- An argument of a toolkit call. -/
inductive Arg where
  | obj (o : Ptr)
  | str (s : String)
  | int (n : Int)
  | ints (l : List Int)
  | const (c : String)
  | cb (f : String)
  | data (p : AdPtr)
  deriving DecidableEq

/-- One call into the toolkit: the function and its arguments in source order. -/
structure EflCall where
  fn : String
  args : List Arg
  deriving DecidableEq

/-- The toolkit: what the object-creating and querying functions return, as a
function of all toolkit calls made so far and of their arguments. -/
structure Toolkit where
  elm_win_util_standard_add : List EflCall → String → String → Ptr
  elm_win_wm_rotation_supported_get : List EflCall → Ptr → Bool
  elm_conformant_add : List EflCall → Ptr → Ptr
  elm_glview_add : List EflCall → Ptr → Ptr

/-! ## Program state -/

/-- Everything the modelled functions read or write: the one app-data record,
the pointer stored under key "ad" on the GL view, and the two call logs. -/
structure World where
  ad : appdata_s
  gl_data_ad : AdPtr
  gl_calls : List GLCall
  efl_calls : List EflCall
  deriving DecidableEq

/-- A C function body: runs on the world and yields a value and the world it
leaves; it has no result when it dereferences NULL. -/
def M (α : Type) : Type := World → Option (α × World)

/-- Sequencing: run `x`, and `f` on its result unless `x` had none. -/
@[noinline]
def M.bind {α β : Type} (x : M α) (f : α → M β) : M β := fun w =>
  match x w with
  | none => none
  | some (a, w1) => f a w1

instance : Monad M where
  pure a := fun w => some (a, w)
  bind := M.bind

/-- Read through an app-data pointer (`ad->field`); NULL has no result. -/
def load (p : AdPtr) : M appdata_s := fun w =>
  match p with
  | AdPtr.NULL => none
  | AdPtr.addr => some (w.ad, w)

/-- Write through an app-data pointer (`ad->field = v`); NULL has no result. -/
def store (p : AdPtr) (f : appdata_s → appdata_s) : M Unit := fun w =>
  match p with
  | AdPtr.NULL => none
  | AdPtr.addr => some ((), { w with ad := f w.ad })

/-- Log a GL call made through the API table (`__evas_gl_glapi`). -/
def gl_call (c : GLCall) : M Unit := fun w =>
  some ((), { w with gl_calls := w.gl_calls ++ [c] })

/-- Log a toolkit call. -/
def efl_call (fn : String) (args : List Arg) : M Unit := fun w =>
  some ((), { w with efl_calls := w.efl_calls ++ [EflCall.mk fn args] })

/-- The call `glCreateShader(type)`: the driver picks the handle, the call is
logged with it. -/
def glCreateShader (drv : GLDriver) (type : GLenum) : M Nat := fun w =>
  let r := drv.glCreateShader w.gl_calls type
  some (r, { w with gl_calls := w.gl_calls ++ [GLCall.glCreateShader type r] })

/-- The call `glCreateProgram()`: the driver picks the handle, the call is
logged with it. -/
def glCreateProgram (drv : GLDriver) : M Nat := fun w =>
  let r := drv.glCreateProgram w.gl_calls
  some (r, { w with gl_calls := w.gl_calls ++ [GLCall.glCreateProgram r] })

/-- The call `evas_object_data_get(obj, key)` on the GL view: the pointer
stored under the key, NULL when nothing is stored. -/
def evas_object_data_get (key : String) : M AdPtr := fun w =>
  some (if key = "ad" then w.gl_data_ad else AdPtr.NULL, w)

/-- The call `evas_object_data_del(obj, key)` on the GL view: forget what is
stored under the key. -/
def evas_object_data_del (key : String) : M Unit := fun w =>
  some ((), if key = "ad" then { w with gl_data_ad := AdPtr.NULL } else w)

/-- The call `evas_object_data_set(obj, key, data)` with `obj` the pointer
`elm_glview_add` returned: stores the pointer under the key; the toolkit
ignores the call on a NULL object. -/
def evas_object_data_set (obj : Ptr) (key : String) (data : AdPtr) : M Unit := fun w =>
  some ((), if obj ≠ none ∧ key = "ad" then { w with gl_data_ad := data } else w)

/-- The call `elm_glview_size_get(obj, w, h)`: the toolkit writes the width it
reports through `w` and the height through `h`.  `size` is the reported
`(width, height)`; an out-pointer into the record is the record pointer
together with the field it addresses. -/
def elm_glview_size_get (size : Int × Int) (ad : AdPtr)
    (w : Int → appdata_s → appdata_s) (h : Int → appdata_s → appdata_s) : M Unit := do
  efl_call "elm_glview_size_get" [Arg.const "obj", Arg.data ad, Arg.data ad]
  store ad (w size.1)
  store ad (h size.2)

/-- The call `elm_win_util_standard_add(name, title)`. -/
def elm_win_util_standard_add (tk : Toolkit) (name : String) (title : String) : M Ptr := fun w =>
  some (tk.elm_win_util_standard_add w.efl_calls name title,
    { w with efl_calls := w.efl_calls ++
        [EflCall.mk "elm_win_util_standard_add" [Arg.str name, Arg.str title]] })

/-- The call `elm_win_wm_rotation_supported_get(win)`. -/
def elm_win_wm_rotation_supported_get (tk : Toolkit) (win : Ptr) : M Bool := fun w =>
  some (tk.elm_win_wm_rotation_supported_get w.efl_calls win,
    { w with efl_calls := w.efl_calls ++
        [EflCall.mk "elm_win_wm_rotation_supported_get" [Arg.obj win]] })

/-- The call `elm_conformant_add(parent)`. -/
def elm_conformant_add (tk : Toolkit) (parent : Ptr) : M Ptr := fun w =>
  some (tk.elm_conformant_add w.efl_calls parent,
    { w with efl_calls := w.efl_calls ++ [EflCall.mk "elm_conformant_add" [Arg.obj parent]] })

/-- The call `elm_glview_add(parent)`. -/
def elm_glview_add (tk : Toolkit) (parent : Ptr) : M Ptr := fun w =>
  some (tk.elm_glview_add w.efl_calls parent,
    { w with efl_calls := w.efl_calls ++ [EflCall.mk "elm_glview_add" [Arg.obj parent]] })

/-! ## `src/glviewshader.c` -/

/-- Vertex shader source: the five adjacent string literals of `vertex_shader[]`. -/
def vertex_shader : String :=
  "attribute vec4 vPosition; \nvoid main() \n\x7b \n gl_Position = vPosition; \n\x7d \n"

/-- Fragment shader source: the five adjacent string literals of `fragment_shader[]`. -/
def fragment_shader : String :=
  "precision mediump float; \nvoid main() \n\x7b \n gl_FragColor = vec4(0.0, 1.0, 0.0, 1.0); \n\x7d \n"

/-- The function `init_shaders(obj)`. -/
def init_shaders (drv : GLDriver) : M Unit := do
  let ad ← evas_object_data_get "ad"
  -- Create & compile vertex shader
  let p := vertex_shader
  let r ← glCreateShader drv GLenum.GL_VERTEX_SHADER
  store ad fun a => { a with vtx_shader := r }
  gl_call (GLCall.glShaderSource (← load ad).vtx_shader 1 [p] none)
  gl_call (GLCall.glCompileShader (← load ad).vtx_shader)
  -- Create & compile fragment shader
  let p := fragment_shader
  let r ← glCreateShader drv GLenum.GL_FRAGMENT_SHADER
  store ad fun a => { a with fgmt_shader := r }
  gl_call (GLCall.glShaderSource (← load ad).fgmt_shader 1 [p] none)
  gl_call (GLCall.glCompileShader (← load ad).fgmt_shader)
  -- Create a program and attach vertex and fragment shaders to the program
  let r ← glCreateProgram drv
  store ad fun a => { a with program := r }
  gl_call (GLCall.glAttachShader (← load ad).program (← load ad).vtx_shader)
  gl_call (GLCall.glAttachShader (← load ad).program (← load ad).fgmt_shader)
  gl_call (GLCall.glLinkProgram (← load ad).program)
  -- Use the program
  gl_call (GLCall.glUseProgram (← load ad).program)

/-- The function `resize_gl(obj)`; `size` is the `(width, height)` the toolkit
reports for the GL view at this call. -/
def resize_gl (size : Int × Int) : M Unit := do
  let ad ← evas_object_data_get "ad"
  -- Get size of GLView object for setting Viewport
  elm_glview_size_get size ad (fun v a => { a with glview_w := v })
    (fun v a => { a with glview_h := v })

/-- The local array `vVertices` of `draw_gl`; its nine values are exact in
single precision. -/
def vVertices : List Rat :=
  [0, 1/2, 0,
   -1/2, -1/2, 0,
   1/2, -1/2, 0]

/-- The function `draw_gl(obj)`. -/
def draw_gl : M Unit := do
  let ad ← evas_object_data_get "ad"
  gl_call (GLCall.glViewport 0 0 (← load ad).glview_w (← load ad).glview_h)
  -- Clear the color buffer
  gl_call (GLCall.glClear GLenum.GL_COLOR_BUFFER_BIT)
  -- Use the program object
  gl_call (GLCall.glUseProgram (← load ad).program)
  -- Load the vertex data
  gl_call (GLCall.glVertexAttribPointer 0 3 GLenum.GL_FLOAT GLenum.GL_FALSE 0 vVertices)
  gl_call (GLCall.glEnableVertexAttribArray 0)
  gl_call (GLCall.glDrawArrays GLenum.GL_TRIANGLES 0 3)

/-- The function `init_gl(obj)`. -/
def init_gl (drv : GLDriver) : M Unit := do
  let ad ← evas_object_data_get "ad"
  if (← load ad).initialized = 0 then
    init_shaders drv
    store ad fun a => { a with initialized := EINA_TRUE }

/-- The function `del_gl(obj)`. -/
def del_gl : M Unit := do
  let ad ← evas_object_data_get "ad"
  -- Release resources.
  gl_call (GLCall.glDeleteShader (← load ad).vtx_shader)
  gl_call (GLCall.glDeleteShader (← load ad).fgmt_shader)
  gl_call (GLCall.glDeleteProgram (← load ad).program)
  evas_object_data_del "ad"

/-- The function `create_indicator(ad)`. -/
def create_indicator (tk : Toolkit) (ad : AdPtr) : M Unit := do
  efl_call "elm_win_conformant_set" [Arg.obj (← load ad).win, Arg.const "EINA_TRUE"]
  efl_call "elm_win_indicator_mode_set" [Arg.obj (← load ad).win, Arg.const "ELM_WIN_INDICATOR_SHOW"]
  efl_call "elm_win_indicator_opacity_set"
    [Arg.obj (← load ad).win, Arg.const "ELM_WIN_INDICATOR_TRANSPARENT"]
  let r ← elm_conformant_add tk (← load ad).win
  store ad fun a => { a with conform := r }
  efl_call "evas_object_size_hint_weight_set"
    [Arg.obj (← load ad).conform, Arg.const "EVAS_HINT_EXPAND", Arg.const "EVAS_HINT_EXPAND"]
  efl_call "elm_win_resize_object_add" [Arg.obj (← load ad).win, Arg.obj (← load ad).conform]
  efl_call "evas_object_show" [Arg.obj (← load ad).conform]

/-- The function `add_win(name)`. -/
def add_win (tk : Toolkit) (name : String) : M Ptr := do
  efl_call "elm_config_accel_preference_set" [Arg.str "opengl:depth"]
  let win ← elm_win_util_standard_add tk name "OpenGL example: Tea pot"
  if win = none then
    return none
  if (← elm_win_wm_rotation_supported_get tk win) then
    let rots : List Int := [0, 90, 180, 270]
    efl_call "elm_win_wm_rotation_available_rotations_set" [Arg.obj win, Arg.ints rots, Arg.int 4]
  efl_call "evas_object_show" [Arg.obj win]
  return win

/-- The function `app_create(data)`. -/
def app_create (tk : Toolkit) (data : AdPtr) : M Bool := do
  let ad := data
  if data = AdPtr.NULL then
    return false
  -- Create the window
  let r ← add_win tk (← load ad).name
  store ad fun a => { a with win := r }
  if (← load ad).win = none then
    return false
  create_indicator tk ad
  efl_call "evas_object_smart_callback_add"
    [Arg.obj (← load ad).win, Arg.str "delete,request", Arg.cb "win_delete_request_cb",
     Arg.data AdPtr.NULL]
  efl_call "eext_object_event_callback_add"
    [Arg.obj (← load ad).win, Arg.const "EEXT_CALLBACK_BACK", Arg.cb "win_back_cb", Arg.data ad]
  -- Create and initialize GLView
  let gl ← elm_glview_add tk (← load ad).conform
  -- ELEMENTARY_GLVIEW_GLOBAL_USE(gl)
  efl_call "elm_glview_gl_api_get" [Arg.obj gl]
  efl_call "evas_object_size_hint_align_set"
    [Arg.obj gl, Arg.const "EVAS_HINT_FILL", Arg.const "EVAS_HINT_FILL"]
  efl_call "evas_object_size_hint_weight_set"
    [Arg.obj gl, Arg.const "EVAS_HINT_EXPAND", Arg.const "EVAS_HINT_EXPAND"]
  efl_call "elm_glview_mode_set"
    [Arg.obj gl, Arg.const "ELM_GLVIEW_DEPTH | ELM_GLVIEW_DIRECT | ELM_GLVIEW_CLIENT_SIDE_ROTATION"]
  efl_call "elm_glview_resize_policy_set" [Arg.obj gl, Arg.const "ELM_GLVIEW_RESIZE_POLICY_RECREATE"]
  efl_call "elm_glview_render_policy_set" [Arg.obj gl, Arg.const "ELM_GLVIEW_RENDER_POLICY_ON_DEMAND"]
  -- The initialize, delete, resize and render callbacks get registered here
  efl_call "elm_glview_init_func_set" [Arg.obj gl, Arg.cb "init_gl"]
  efl_call "elm_glview_del_func_set" [Arg.obj gl, Arg.cb "del_gl"]
  efl_call "elm_glview_resize_func_set" [Arg.obj gl, Arg.cb "resize_gl"]
  efl_call "elm_glview_render_func_set" [Arg.obj gl, Arg.cb "draw_gl"]
  -- Add the GLView to the conformant and show it
  efl_call "elm_object_content_set" [Arg.obj (← load ad).conform, Arg.obj gl]
  efl_call "evas_object_show" [Arg.obj gl]
  efl_call "elm_object_focus_set" [Arg.obj gl, Arg.const "EINA_TRUE"]
  evas_object_data_set gl "ad" ad
  efl_call "evas_object_show" [Arg.obj (← load ad).win]
  -- Return true: the main loop will now start running
  return true

/-! ## The surface lifecycle as the toolkit drives it -/

/-- A delete call. -/
def GLCall.isDelete : GLCall → Bool
  | GLCall.glDeleteShader _ => true
  | GLCall.glDeleteProgram _ => true
  | _ => false

/-- A create call. -/
def GLCall.isCreate : GLCall → Bool
  | GLCall.glCreateShader _ _ => true
  | GLCall.glCreateProgram _ => true
  | _ => false

/-- A viewport call. -/
def GLCall.isViewport : GLCall → Bool
  | GLCall.glViewport _ _ _ _ => true
  | _ => false

/-- A draw call. -/
def GLCall.isDraw : GLCall → Bool
  | GLCall.glDrawArrays _ _ _ => true
  | _ => false

/-- The name of the API function called. -/
def GLCall.fn : GLCall → String
  | GLCall.glCreateShader _ _ => "glCreateShader"
  | GLCall.glShaderSource _ _ _ _ => "glShaderSource"
  | GLCall.glCompileShader _ => "glCompileShader"
  | GLCall.glCreateProgram _ => "glCreateProgram"
  | GLCall.glAttachShader _ _ => "glAttachShader"
  | GLCall.glLinkProgram _ => "glLinkProgram"
  | GLCall.glUseProgram _ => "glUseProgram"
  | GLCall.glViewport _ _ _ _ => "glViewport"
  | GLCall.glClear _ => "glClear"
  | GLCall.glVertexAttribPointer _ _ _ _ _ _ => "glVertexAttribPointer"
  | GLCall.glEnableVertexAttribArray _ => "glEnableVertexAttribArray"
  | GLCall.glDrawArrays _ _ _ => "glDrawArrays"
  | GLCall.glDeleteShader _ => "glDeleteShader"
  | GLCall.glDeleteProgram _ => "glDeleteProgram"

/-! ## Call sequences and sample states used in the statements -/

/-- The eleven calls of `init_shaders` when the driver returns `v`, `f` and `p`
to the three create calls. -/
def init_calls (v f p : Nat) : List GLCall :=
  [GLCall.glCreateShader GLenum.GL_VERTEX_SHADER v,
   GLCall.glShaderSource v 1 [vertex_shader] none,
   GLCall.glCompileShader v,
   GLCall.glCreateShader GLenum.GL_FRAGMENT_SHADER f,
   GLCall.glShaderSource f 1 [fragment_shader] none,
   GLCall.glCompileShader f,
   GLCall.glCreateProgram p,
   GLCall.glAttachShader p v,
   GLCall.glAttachShader p f,
   GLCall.glLinkProgram p,
   GLCall.glUseProgram p]

/-- The six calls of one render for stored width `W`, height `H` and program `p`. -/
def draw_calls (W H : Int) (p : Nat) : List GLCall :=
  [GLCall.glViewport 0 0 W H,
   GLCall.glClear GLenum.GL_COLOR_BUFFER_BIT,
   GLCall.glUseProgram p,
   GLCall.glVertexAttribPointer 0 3 GLenum.GL_FLOAT GLenum.GL_FALSE 0
     [0, 1/2, 0, -1/2, -1/2, 0, 1/2, -1/2, 0],
   GLCall.glEnableVertexAttribArray 0,
   GLCall.glDrawArrays GLenum.GL_TRIANGLES 0 3]

/-- The three calls of one delete for handles `v`, `f` and `p`. -/
def del_calls (v f p : Nat) : List GLCall :=
  [GLCall.glDeleteShader v, GLCall.glDeleteShader f, GLCall.glDeleteProgram p]

/-- The toolkit call of one resize. -/
def size_get_call : EflCall :=
  EflCall.mk "elm_glview_size_get" [Arg.const "obj", Arg.data AdPtr.addr, Arg.data AdPtr.addr]

/-- The handle the driver returns to the first `glCreateShader` of
`init_shaders`, entered after the GL calls `h`. -/
def vtx_handle (drv : GLDriver) (h : List GLCall) : Nat :=
  drv.glCreateShader h GLenum.GL_VERTEX_SHADER

/-- The handle the driver returns to the second `glCreateShader` of
`init_shaders`, entered after the GL calls `h`. -/
def fgmt_handle (drv : GLDriver) (h : List GLCall) : Nat :=
  drv.glCreateShader
    (h ++ [GLCall.glCreateShader GLenum.GL_VERTEX_SHADER (vtx_handle drv h),
      GLCall.glShaderSource (vtx_handle drv h) 1 [vertex_shader] none,
      GLCall.glCompileShader (vtx_handle drv h)]) GLenum.GL_FRAGMENT_SHADER

/-- The handle the driver returns to the `glCreateProgram` of `init_shaders`,
entered after the GL calls `h`. -/
def program_handle (drv : GLDriver) (h : List GLCall) : Nat :=
  drv.glCreateProgram
    (h ++ [GLCall.glCreateShader GLenum.GL_VERTEX_SHADER (vtx_handle drv h),
      GLCall.glShaderSource (vtx_handle drv h) 1 [vertex_shader] none,
      GLCall.glCompileShader (vtx_handle drv h),
      GLCall.glCreateShader GLenum.GL_FRAGMENT_SHADER (fgmt_handle drv h),
      GLCall.glShaderSource (fgmt_handle drv h) 1 [fragment_shader] none,
      GLCall.glCompileShader (fgmt_handle drv h)])

/-- The record of `main`: `appdata_s ad = \x7bNULL,\x7d` and then
`ad.name = "glviewshader"`. -/
def ad_main : appdata_s :=
  { name := "glviewshader", win := none, conform := none, ani := none,
    glview_h := 0, glview_w := 0, view_rotation := 0,
    program := 0, vtx_shader := 0, fgmt_shader := 0, angle := 0,
    idx_vbo := 0, idx_ibo := 0, idx_vposition := 0, idx_vnormal := 0,
    idx_light_dir := 0, idx_mvp := 0, idx_time_stamp := 0,
    mvp := List.replicate 16 0, light_dir := List.replicate 4 0,
    stop_count := 0, time_stamp := 0, stride_time_stamp := 0,
    initialized := EINA_FALSE }

/-- The state in which `main` hands control to the host runtime: nothing
called yet, no GL view. -/
def w_main : World :=
  { ad := ad_main, gl_data_ad := AdPtr.NULL, gl_calls := [], efl_calls := [] }

/-- A fresh surface: the record of `main` stored under "ad" on the GL view. -/
def w_surface : World :=
  { ad := ad_main, gl_data_ad := AdPtr.addr, gl_calls := [], efl_calls := [] }

/-- A surface whose record says initialized, holding handles 1, 4 and 7 and a
320 by 480 view. -/
def w_live : World :=
  { ad := { ad_main with
            glview_w := 320, glview_h := 480,
            vtx_shader := 1, fgmt_shader := 4, program := 7,
            initialized := EINA_TRUE },
    gl_data_ad := AdPtr.addr, gl_calls := [], efl_calls := [] }

/-- A driver that numbers its objects by the position of the create call. -/
def drv_count : GLDriver :=
  { glCreateShader := fun h _ => h.length + 1,
    glCreateProgram := fun h => h.length + 1 }

/-- A toolkit that creates the window (object 1) and the conformant (object 2),
supports rotation, and fails to create the GL view. -/
def tk_no_glview : Toolkit :=
  { elm_win_util_standard_add := fun _ _ _ => some 1,
    elm_win_wm_rotation_supported_get := fun _ _ => true,
    elm_conformant_add := fun _ _ => some 2,
    elm_glview_add := fun _ _ => none }

/-- A toolkit that fails to create the window. -/
def tk_no_win : Toolkit :=
  { elm_win_util_standard_add := fun _ _ _ => none,
    elm_win_wm_rotation_supported_get := fun _ _ => true,
    elm_conformant_add := fun _ _ => some 2,
    elm_glview_add := fun _ _ => some 3 }

/-- A toolkit on which every creation succeeds. -/
def tk_ok : Toolkit :=
  { elm_win_util_standard_add := fun _ _ _ => some 1,
    elm_win_wm_rotation_supported_get := fun _ _ => true,
    elm_conformant_add := fun _ _ => some 2,
    elm_glview_add := fun _ _ => some 3 }

/-- The pointer `elm_win_util_standard_add` returns inside `add_win(name)`
entered in state `w`. -/
def win_result (tk : Toolkit) (name : String) (w : World) : Ptr :=
  tk.elm_win_util_standard_add
    (w.efl_calls ++ [EflCall.mk "elm_config_accel_preference_set" [Arg.str "opengl:depth"]])
    name "OpenGL example: Tea pot"

/-- What a resize or a render leaves alone: the attachment of the record, its
three handles and its flag; the GL calls it adds are neither create nor delete
calls. -/
def Keeps (w w1 : World) : Prop :=
  w1.gl_data_ad = w.gl_data_ad ∧ w1.ad.vtx_shader = w.ad.vtx_shader ∧
  w1.ad.fgmt_shader = w.ad.fgmt_shader ∧ w1.ad.program = w.ad.program ∧
  w1.ad.initialized = w.ad.initialized ∧
  ∃ mid, w1.gl_calls = w.gl_calls ++ mid ∧ ∀ c ∈ mid, c.isDelete = false ∧ c.isCreate = false

/-! ## Unfolding lemmas -/

theorem bind_run {α β : Type} (x : M α) (f : α → M β) (w : World) :
    (x >>= f) w = match x w with
      | none => none
      | some (a, w1) => f a w1 := rfl

theorem pure_run {α : Type} (a : α) (w : World) : (pure a : M α) w = some (a, w) := rfl


/-! ## What each callback does on a surface whose record is attached -/

theorem draw_gl_run (w : World) (h : w.gl_data_ad = AdPtr.addr) :
    draw_gl w = some ((),
      { w with
        gl_calls := w.gl_calls ++ draw_calls w.ad.glview_w w.ad.glview_h w.ad.program }) := by
  simp [draw_gl, bind_run, evas_object_data_get, load, gl_call, h, draw_calls, vVertices]

theorem resize_gl_run (w : World) (size : Int × Int) (h : w.gl_data_ad = AdPtr.addr) :
    resize_gl size w = some ((),
      { w with
        ad := { w.ad with glview_w := size.1, glview_h := size.2 },
        efl_calls := w.efl_calls ++ [size_get_call] }) := by
  simp [resize_gl, elm_glview_size_get, bind_run, evas_object_data_get, load, store, efl_call, h,
    size_get_call]

theorem del_gl_run (w : World) (h : w.gl_data_ad = AdPtr.addr) :
    del_gl w = some ((),
      { w with
        gl_data_ad := AdPtr.NULL,
        gl_calls := w.gl_calls ++ del_calls w.ad.vtx_shader w.ad.fgmt_shader w.ad.program }) := by
  simp [del_gl, bind_run, evas_object_data_get, load, gl_call, evas_object_data_del, h, del_calls]

theorem init_shaders_run (drv : GLDriver) (w : World) (h : w.gl_data_ad = AdPtr.addr) :
    init_shaders drv w = some ((),
      { w with
        ad := { w.ad with
                vtx_shader := vtx_handle drv w.gl_calls,
                fgmt_shader := fgmt_handle drv w.gl_calls,
                program := program_handle drv w.gl_calls },
        gl_calls := w.gl_calls ++ init_calls (vtx_handle drv w.gl_calls)
          (fgmt_handle drv w.gl_calls) (program_handle drv w.gl_calls) }) := by
  simp [init_shaders, bind_run, evas_object_data_get, load, store, gl_call, glCreateShader,
    glCreateProgram, h, init_calls, vtx_handle, fgmt_handle, program_handle]

theorem init_gl_run_initialized (drv : GLDriver) (w : World) (h : w.gl_data_ad = AdPtr.addr)
    (hi : w.ad.initialized ≠ 0) : init_gl drv w = some ((), w) := by
  simp [init_gl, bind_run, evas_object_data_get, load, h, hi, pure_run]

theorem init_gl_run_uninitialized (drv : GLDriver) (w : World) (h : w.gl_data_ad = AdPtr.addr)
    (hi : w.ad.initialized = 0) :
    init_gl drv w = some ((),
      { w with
        ad := { w.ad with
                vtx_shader := vtx_handle drv w.gl_calls,
                fgmt_shader := fgmt_handle drv w.gl_calls,
                program := program_handle drv w.gl_calls,
                initialized := EINA_TRUE },
        gl_calls := w.gl_calls ++ init_calls (vtx_handle drv w.gl_calls)
          (fgmt_handle drv w.gl_calls) (program_handle drv w.gl_calls) }) := by
  simp [init_gl, bind_run, evas_object_data_get, load, store, h, hi, init_shaders_run]

/-! ## Events between init and delete -/

theorem Keeps.rfl (w : World) : Keeps w w :=
  ⟨Eq.refl _, Eq.refl _, Eq.refl _, Eq.refl _, Eq.refl _, [], by simp, by simp⟩

theorem app_create_null (tk : Toolkit) (w : World) :
    app_create tk AdPtr.NULL w = some (false, w) := by
  simp [app_create, pure_run]

theorem add_win_run (tk : Toolkit) (name : String) (w : World) :
    ∃ w1, add_win tk name w = some (win_result tk name w, w1) ∧ w1.ad = w.ad ∧
      w1.gl_data_ad = w.gl_data_ad ∧ w1.gl_calls = w.gl_calls := by
  cases h : win_result tk name w with
  | none =>
    simp only [win_result] at h
    simp [add_win, bind_run, pure_run, efl_call, elm_win_util_standard_add, h]
  | some o =>
    simp only [win_result] at h
    by_cases hr : tk.elm_win_wm_rotation_supported_get
        (w.efl_calls ++ [EflCall.mk "elm_config_accel_preference_set" [Arg.str "opengl:depth"],
          EflCall.mk "elm_win_util_standard_add" [Arg.str name, Arg.str "OpenGL example: Tea pot"]])
        (some o) = true <;>
    simp [add_win, bind_run, pure_run, efl_call, elm_win_util_standard_add,
      elm_win_wm_rotation_supported_get, h, hr]

theorem create_indicator_run (tk : Toolkit) (w : World) :
    ∃ w1, create_indicator tk AdPtr.addr w = some ((), w1) ∧ w1.ad.win = w.ad.win ∧
      w1.gl_calls = w.gl_calls := by
  simp [create_indicator, bind_run, load, store, efl_call, elm_conformant_add]

/-- With a non-NULL record, `app_create` returns, and what it returns is
decided by the window alone: true exactly when `elm_win_util_standard_add`
returned a window, whatever `elm_glview_add` returns. -/
theorem app_create_ret (tk : Toolkit) (w : World) :
    ∃ w1, app_create tk AdPtr.addr w =
      some (decide (win_result tk w.ad.name w ≠ none), w1) := by
  obtain ⟨wa, ha, hada, _, _⟩ := add_win_run tk w.ad.name w
  cases h : win_result tk w.ad.name w with
  | none =>
    rw [h] at ha
    simp [app_create, bind_run, pure_run, load, store, ha]
  | some o =>
    rw [h] at ha
    obtain ⟨wb, hb, hwin, _⟩ :=
      create_indicator_run tk { wa with ad := { wa.ad with win := some o } }
    simp [app_create, bind_run, pure_run, load, store, ha, hb, efl_call, elm_glview_add,
      evas_object_data_set]

/-! ## The claims -/

/-- Claim C1: on a surface whose record is attached, when the toolkit reports
the positive size `(W, H)`, `resize_gl` returns and leaves the record with
`glview_w = W` and `glview_h = H`, width in the width field and height in the
height field; no other field of the record changes. -/
theorem resize_gl_stores_size (w : World) (W H : Int)
    (hobj : w.gl_data_ad = AdPtr.addr) (_hW : 0 < W) (_hH : 0 < H) :
    ∃ w1, resize_gl (W, H) w = some ((), w1) ∧
      w1.ad.glview_w = W ∧ w1.ad.glview_h = H ∧
      w1.ad = { w.ad with glview_w := W, glview_h := H } :=
  ⟨_, resize_gl_run w (W, H) hobj, rfl, rfl, rfl⟩

theorem resize_gl_stores_size_witness :
    w_surface.gl_data_ad = AdPtr.addr ∧ (0 : Int) < 320 ∧ (0 : Int) < 480 ∧
    ∃ w1, resize_gl (320, 480) w_surface = some ((), w1) ∧
      w1.ad.glview_w = 320 ∧ w1.ad.glview_h = 480 ∧
      w1.ad = { w_surface.ad with glview_w := 320, glview_h := 480 } :=
  ⟨rfl, by decide, by decide,
    resize_gl_stores_size w_surface 320 480 rfl (by decide) (by decide)⟩

/-- Claim C2: on a surface whose record is attached, `init_gl` returns, and a
second `init_gl` right after it returns the state unchanged: the same record,
and a GL log with no call added.  The flag reads true after the first run. -/
theorem init_gl_idempotent (drv : GLDriver) (w : World) (hobj : w.gl_data_ad = AdPtr.addr) :
    ∃ w1 w2, init_gl drv w = some ((), w1) ∧ init_gl drv w1 = some ((), w2) ∧
      w1.ad.initialized ≠ 0 ∧ w2.ad = w1.ad ∧ w2.gl_calls = w1.gl_calls ∧ w2 = w1 := by
  by_cases hi : w.ad.initialized = 0
  · refine ⟨_, _, init_gl_run_uninitialized drv w hobj hi, ?_, ?_, rfl, rfl, rfl⟩
    · exact init_gl_run_initialized drv _ hobj (by simp [EINA_TRUE])
    · simp [EINA_TRUE]
  · exact ⟨w, w, init_gl_run_initialized drv w hobj hi, init_gl_run_initialized drv w hobj hi,
      hi, rfl, rfl, rfl⟩

theorem init_gl_idempotent_witness :
    w_surface.gl_data_ad = AdPtr.addr ∧
    ∃ w1 w2, init_gl drv_count w_surface = some ((), w1) ∧ init_gl drv_count w1 = some ((), w2) ∧
      w1.ad.initialized ≠ 0 ∧ w2.ad = w1.ad ∧ w2.gl_calls = w1.gl_calls ∧ w2 = w1 :=
  ⟨rfl, init_gl_idempotent drv_count w_surface rfl⟩

/-- Claim C3: on a surface whose record is attached and stores `glview_w = W`
and `glview_h = H`, `draw_gl` returns; among the calls it issues the only
viewport call is `glViewport(0, 0, W, H)`, the only draw call is
`glDrawArrays(GL_TRIANGLES, 0, 3)`, and the viewport call is among the calls
issued before the draw call. -/
theorem draw_gl_viewport_before_draw (w : World) (W H : Int)
    (hobj : w.gl_data_ad = AdPtr.addr) (hW : w.ad.glview_w = W) (hH : w.ad.glview_h = H) :
    ∃ w1 calls, draw_gl w = some ((), w1) ∧ w1.gl_calls = w.gl_calls ++ calls ∧
      calls.filter GLCall.isViewport = [GLCall.glViewport 0 0 W H] ∧
      calls.filter GLCall.isDraw = [GLCall.glDrawArrays GLenum.GL_TRIANGLES 0 3] ∧
      ∃ before after,
        calls = before ++ GLCall.glDrawArrays GLenum.GL_TRIANGLES 0 3 :: after ∧
        GLCall.glViewport 0 0 W H ∈ before := by
  subst hW hH
  refine ⟨_, draw_calls w.ad.glview_w w.ad.glview_h w.ad.program, draw_gl_run w hobj, rfl,
    ?_, ?_, (draw_calls w.ad.glview_w w.ad.glview_h w.ad.program).take 5, [], ?_, ?_⟩ <;>
  simp [draw_calls, GLCall.isViewport, GLCall.isDraw]

theorem draw_gl_viewport_before_draw_witness :
    w_live.gl_data_ad = AdPtr.addr ∧ w_live.ad.glview_w = 320 ∧ w_live.ad.glview_h = 480 ∧
    ∃ w1 calls, draw_gl w_live = some ((), w1) ∧ w1.gl_calls = w_live.gl_calls ++ calls ∧
      calls.filter GLCall.isViewport = [GLCall.glViewport 0 0 320 480] ∧
      calls.filter GLCall.isDraw = [GLCall.glDrawArrays GLenum.GL_TRIANGLES 0 3] ∧
      ∃ before after,
        calls = before ++ GLCall.glDrawArrays GLenum.GL_TRIANGLES 0 3 :: after ∧
        GLCall.glViewport 0 0 320 480 ∈ before :=
  ⟨rfl, rfl, rfl, draw_gl_viewport_before_draw w_live 320 480 rfl rfl rfl⟩

/-- Claim C4: on a surface whose record is attached, one run of `del_gl` returns
and issues exactly three GL calls: `glDeleteShader` on the record's
`vtx_shader`, `glDeleteShader` on its `fgmt_shader`, `glDeleteProgram` on its
`program`. -/
theorem del_gl_calls (w : World) (hobj : w.gl_data_ad = AdPtr.addr) :
    ∃ w1, del_gl w = some ((), w1) ∧
      w1.gl_calls = w.gl_calls ++
        [GLCall.glDeleteShader w.ad.vtx_shader,
         GLCall.glDeleteShader w.ad.fgmt_shader,
         GLCall.glDeleteProgram w.ad.program] :=
  ⟨_, del_gl_run w hobj, rfl⟩

theorem del_gl_calls_witness :
    w_live.gl_data_ad = AdPtr.addr ∧
    ∃ w1, del_gl w_live = some ((), w1) ∧
      w1.gl_calls = [GLCall.glDeleteShader 1, GLCall.glDeleteShader 4, GLCall.glDeleteProgram 7] :=
  ⟨rfl, del_gl_calls w_live rfl⟩

/-- Claim C5, the failing input: the record is non-NULL, the window and the
conformant are created, `elm_glview_add` returns NULL, and `app_create`
returns true.  No record pointer is stored on a GL view afterwards. -/
theorem app_create_true_without_glview :
    (∀ h p, tk_no_glview.elm_glview_add h p = none) ∧
    ∃ w1, app_create tk_no_glview AdPtr.addr w_main = some (true, w1) ∧
      w1.ad.win = some 1 ∧ w1.gl_data_ad = AdPtr.NULL :=
  ⟨fun _ _ => rfl, _, rfl, rfl, rfl⟩

/-- Claim C6: on a surface whose record is attached and whose flag is false,
`init_gl` returns and issues exactly the eleven calls: create the vertex
shader, source, compile; create the fragment shader, source, compile; create
the program, attach the vertex shader, attach the fragment shader, link, use.
The handles `v`, `f`, `p` in them are the ones the driver returned to the three
create calls; afterwards the record holds them in `vtx_shader`, `fgmt_shader`
and `program`, its flag is true, and no other field has changed. -/
theorem init_gl_call_sequence (drv : GLDriver) (w : World)
    (hobj : w.gl_data_ad = AdPtr.addr) (hi : w.ad.initialized = EINA_FALSE) :
    ∃ w1 v f p, init_gl drv w = some ((), w1) ∧
      v = drv.glCreateShader w.gl_calls GLenum.GL_VERTEX_SHADER ∧
      f = drv.glCreateShader
        (w.gl_calls ++ [GLCall.glCreateShader GLenum.GL_VERTEX_SHADER v,
          GLCall.glShaderSource v 1 [vertex_shader] none,
          GLCall.glCompileShader v]) GLenum.GL_FRAGMENT_SHADER ∧
      p = drv.glCreateProgram
        (w.gl_calls ++ [GLCall.glCreateShader GLenum.GL_VERTEX_SHADER v,
          GLCall.glShaderSource v 1 [vertex_shader] none,
          GLCall.glCompileShader v,
          GLCall.glCreateShader GLenum.GL_FRAGMENT_SHADER f,
          GLCall.glShaderSource f 1 [fragment_shader] none,
          GLCall.glCompileShader f]) ∧
      w1.gl_calls = w.gl_calls ++
        [GLCall.glCreateShader GLenum.GL_VERTEX_SHADER v,
         GLCall.glShaderSource v 1 [vertex_shader] none,
         GLCall.glCompileShader v,
         GLCall.glCreateShader GLenum.GL_FRAGMENT_SHADER f,
         GLCall.glShaderSource f 1 [fragment_shader] none,
         GLCall.glCompileShader f,
         GLCall.glCreateProgram p,
         GLCall.glAttachShader p v,
         GLCall.glAttachShader p f,
         GLCall.glLinkProgram p,
         GLCall.glUseProgram p] ∧
      w1.ad.vtx_shader = v ∧ w1.ad.fgmt_shader = f ∧ w1.ad.program = p ∧
      w1.ad.initialized = EINA_TRUE ∧
      w1.ad = { w.ad with vtx_shader := v, fgmt_shader := f, program := p,
                          initialized := EINA_TRUE } :=
  ⟨_, vtx_handle drv w.gl_calls, fgmt_handle drv w.gl_calls, program_handle drv w.gl_calls,
    init_gl_run_uninitialized drv w hobj hi, rfl, rfl, rfl, rfl, rfl, rfl, rfl, rfl, rfl⟩

theorem init_gl_call_sequence_witness :
    w_surface.gl_data_ad = AdPtr.addr ∧ w_surface.ad.initialized = EINA_FALSE ∧
    ∃ w1, init_gl drv_count w_surface = some ((), w1) ∧
      w1.gl_calls =
        [GLCall.glCreateShader GLenum.GL_VERTEX_SHADER 1,
         GLCall.glShaderSource 1 1 [vertex_shader] none,
         GLCall.glCompileShader 1,
         GLCall.glCreateShader GLenum.GL_FRAGMENT_SHADER 4,
         GLCall.glShaderSource 4 1 [fragment_shader] none,
         GLCall.glCompileShader 4,
         GLCall.glCreateProgram 7,
         GLCall.glAttachShader 7 1,
         GLCall.glAttachShader 7 4,
         GLCall.glLinkProgram 7,
         GLCall.glUseProgram 7] ∧
      w1.ad.vtx_shader = 1 ∧ w1.ad.fgmt_shader = 4 ∧ w1.ad.program = 7 ∧
      w1.ad.initialized = EINA_TRUE :=
  match init_gl_call_sequence drv_count w_surface rfl rfl with
  | ⟨w1, _, _, _, h, hv, hf, hp, hc, h1, h2, h3, h4, _⟩ => by
    subst hv
    subst hf
    subst hp
    exact ⟨rfl, rfl, w1, h, hc, h1, h2, h3, h4⟩

/-- Claim C8: on any two surfaces whose records are attached and agree on
`glview_w`, `glview_h` and `program`, `draw_gl` returns on both and issues on
both exactly the same six calls: `glViewport(0, 0, glview_w, glview_h)`,
`glClear(GL_COLOR_BUFFER_BIT)`, `glUseProgram(program)`,
`glVertexAttribPointer(0, 3, GL_FLOAT, GL_FALSE, 0, vertices)` with the nine
fixed values, `glEnableVertexAttribArray(0)`, `glDrawArrays(GL_TRIANGLES, 0, 3)`.
The functions called are these six, so none is a uniform or texture call; the
records are left as they were. -/
theorem draw_gl_exact_calls (w w2 : World)
    (hobj : w.gl_data_ad = AdPtr.addr) (hobj2 : w2.gl_data_ad = AdPtr.addr)
    (hW : w2.ad.glview_w = w.ad.glview_w) (hH : w2.ad.glview_h = w.ad.glview_h)
    (hP : w2.ad.program = w.ad.program) :
    ∃ w1 w3 calls, draw_gl w = some ((), w1) ∧ draw_gl w2 = some ((), w3) ∧
      calls =
        [GLCall.glViewport 0 0 w.ad.glview_w w.ad.glview_h,
         GLCall.glClear GLenum.GL_COLOR_BUFFER_BIT,
         GLCall.glUseProgram w.ad.program,
         GLCall.glVertexAttribPointer 0 3 GLenum.GL_FLOAT GLenum.GL_FALSE 0
           [0, 1/2, 0, -1/2, -1/2, 0, 1/2, -1/2, 0],
         GLCall.glEnableVertexAttribArray 0,
         GLCall.glDrawArrays GLenum.GL_TRIANGLES 0 3] ∧
      w1.gl_calls = w.gl_calls ++ calls ∧ w3.gl_calls = w2.gl_calls ++ calls ∧
      calls.map GLCall.fn =
        ["glViewport", "glClear", "glUseProgram", "glVertexAttribPointer",
         "glEnableVertexAttribArray", "glDrawArrays"] ∧
      w1.ad = w.ad ∧ w3.ad = w2.ad := by
  refine ⟨_, _, _, draw_gl_run w hobj, draw_gl_run w2 hobj2, rfl, rfl, ?_, rfl, rfl, rfl⟩
  rw [hW, hH, hP]
  rfl

theorem draw_gl_exact_calls_witness :
    w_live.gl_data_ad = AdPtr.addr ∧
    ∃ w1 w3 calls, draw_gl w_live = some ((), w1) ∧
      draw_gl { w_live with ad := { w_live.ad with mvp := [], idx_mvp := 5 } } = some ((), w3) ∧
      calls =
        [GLCall.glViewport 0 0 320 480,
         GLCall.glClear GLenum.GL_COLOR_BUFFER_BIT,
         GLCall.glUseProgram 7,
         GLCall.glVertexAttribPointer 0 3 GLenum.GL_FLOAT GLenum.GL_FALSE 0
           [0, 1/2, 0, -1/2, -1/2, 0, 1/2, -1/2, 0],
         GLCall.glEnableVertexAttribArray 0,
         GLCall.glDrawArrays GLenum.GL_TRIANGLES 0 3] ∧
      w1.gl_calls = calls ∧ w3.gl_calls = calls :=
  match draw_gl_exact_calls w_live
      { w_live with ad := { w_live.ad with mvp := [], idx_mvp := 5 } } rfl rfl rfl rfl rfl with
  | ⟨w1, w3, calls, h1, h3, hc, hc1, hc3, _⟩ => ⟨rfl, w1, w3, calls, h1, h3, hc, hc1, hc3⟩

/-- Claim C9 as stated fails: on the fresh surface, whose flag is false and
whose program field is 0, `draw_gl` issues `glUseProgram(0)` and
`glDrawArrays(GL_TRIANGLES, 0, 3)`. -/
theorem draw_gl_draws_uninitialized :
    w_surface.gl_data_ad = AdPtr.addr ∧ w_surface.ad.initialized = EINA_FALSE ∧
    ∃ w1, draw_gl w_surface = some ((), w1) ∧
      w1.gl_calls =
        [GLCall.glViewport 0 0 0 0,
         GLCall.glClear GLenum.GL_COLOR_BUFFER_BIT,
         GLCall.glUseProgram 0,
         GLCall.glVertexAttribPointer 0 3 GLenum.GL_FLOAT GLenum.GL_FALSE 0
           [0, 1/2, 0, -1/2, -1/2, 0, 1/2, -1/2, 0],
         GLCall.glEnableVertexAttribArray 0,
         GLCall.glDrawArrays GLenum.GL_TRIANGLES 0 3] ∧
      GLCall.glUseProgram 0 ∈ w1.gl_calls ∧
      GLCall.glDrawArrays GLenum.GL_TRIANGLES 0 3 ∈ w1.gl_calls :=
  ⟨rfl, rfl, _, draw_gl_run w_surface rfl, rfl, by decide, by decide⟩

/-- Claim C9, amended: `draw_gl` does not read the flag.  On a surface whose
record is attached, with the flag set to any value `b`, false or true,
`draw_gl` returns and issues the same six calls, among them
`glUseProgram(program)` on whatever the program field holds and one
`glDrawArrays`; the flag is as it was. -/
theorem draw_gl_ignores_initialized (w : World) (b : Eina_Bool)
    (hobj : w.gl_data_ad = AdPtr.addr) :
    ∃ w1, draw_gl { w with ad := { w.ad with initialized := b } } = some ((), w1) ∧
      w1.gl_calls = w.gl_calls ++
        [GLCall.glViewport 0 0 w.ad.glview_w w.ad.glview_h,
         GLCall.glClear GLenum.GL_COLOR_BUFFER_BIT,
         GLCall.glUseProgram w.ad.program,
         GLCall.glVertexAttribPointer 0 3 GLenum.GL_FLOAT GLenum.GL_FALSE 0
           [0, 1/2, 0, -1/2, -1/2, 0, 1/2, -1/2, 0],
         GLCall.glEnableVertexAttribArray 0,
         GLCall.glDrawArrays GLenum.GL_TRIANGLES 0 3] ∧
      w1.ad.initialized = b :=
  ⟨_, draw_gl_run { w with ad := { w.ad with initialized := b } } hobj, rfl, rfl⟩

theorem draw_gl_ignores_initialized_witness :
    w_live.gl_data_ad = AdPtr.addr ∧
    ∃ w1, draw_gl { w_live with ad := { w_live.ad with initialized := EINA_FALSE } } =
        some ((), w1) ∧
      w1.gl_calls =
        [GLCall.glViewport 0 0 320 480,
         GLCall.glClear GLenum.GL_COLOR_BUFFER_BIT,
         GLCall.glUseProgram 7,
         GLCall.glVertexAttribPointer 0 3 GLenum.GL_FLOAT GLenum.GL_FALSE 0
           [0, 1/2, 0, -1/2, -1/2, 0, 1/2, -1/2, 0],
         GLCall.glEnableVertexAttribArray 0,
         GLCall.glDrawArrays GLenum.GL_TRIANGLES 0 3] ∧
      w1.ad.initialized = EINA_FALSE :=
  ⟨rfl, draw_gl_ignores_initialized w_live EINA_FALSE rfl⟩

/-- Claim C10 as stated fails: on the live surface, whose flag is true, `del_gl`
returns and the flag of the record still reads true. -/
theorem del_gl_flag_still_true :
    w_live.gl_data_ad = AdPtr.addr ∧ w_live.ad.initialized = EINA_TRUE ∧
    ∃ w1, del_gl w_live = some ((), w1) ∧ w1.ad.initialized = EINA_TRUE ∧
      w1.ad.initialized ≠ 0 :=
  ⟨rfl, rfl, _, del_gl_run w_live rfl, rfl, by decide⟩

/-- Claim C10, amended: `del_gl` does not write the record.  On a surface whose
record is attached and whose flag is true, `del_gl` returns, the record is
unchanged field for field, so its flag still reads true, and the pointer stored
under "ad" on the GL view is gone. -/
theorem del_gl_leaves_record (w : World)
    (hobj : w.gl_data_ad = AdPtr.addr) (hi : w.ad.initialized ≠ 0) :
    ∃ w1, del_gl w = some ((), w1) ∧ w1.ad = w.ad ∧ w1.ad.initialized ≠ 0 ∧
      w1.gl_data_ad = AdPtr.NULL :=
  ⟨_, del_gl_run w hobj, rfl, hi, rfl⟩

theorem del_gl_leaves_record_witness :
    w_live.gl_data_ad = AdPtr.addr ∧ w_live.ad.initialized ≠ 0 ∧
    ∃ w1, del_gl w_live = some ((), w1) ∧ w1.ad = w_live.ad ∧ w1.ad.initialized ≠ 0 ∧
      w1.gl_data_ad = AdPtr.NULL :=
  ⟨rfl, by decide, del_gl_leaves_record w_live rfl (by decide)⟩

end GLViewShader
